import Mathlib

/-!
Verification of the mask orchestration and compositing subsystem of the
image-clipper backend (`src/backend/app`): the mask codec
(`app/utils/image_utils.py`), the compositor
(`create_transparent_image_with_masks`), the prediction post-processing
(`SAMModel.predict_masks` in `app/models/sam_model.py`), the resize
geometry and score ranking of `app/main.py`, and the session/export
logic of `app/routers/segmentation.py`.

Conventions of the embedding:
* a boolean mask grid is a `List (List Bool)` (rows, row-major);
* an in-memory image is a function from pixel coordinates `(x, y)` to an
  RGB color (the numpy operations used by the code are pointwise, so the
  function view is faithful);
* predictor confidence scores (Python floats used only as ordering keys)
  are modelled as rationals;
* Python `int()` applied to a nonnegative value truncates toward zero,
  i.e. takes the floor;
* fallible operations return `Except`/`Option`;
* the external SAM predictor is an opaque parameter: the embedding
  covers everything the backend does before invoking it and after it
  returns.
-/

namespace ImageClipper

/-- Pixel coordinate `(x, y)`: `x` is the column, `y` the row. -/
abbrev Pix := Nat × Nat

/-- RGB color, one natural number per channel (uint8 values in the code). -/
abbrev Color := Nat × Nat × Nat

/-- RGBA pixel: color plus alpha channel. -/
abbrev RGBA := Color × Nat

/-- An in-memory RGB image, viewed pointwise. -/
abbrev ImageFun := Pix → Color

/-- An in-memory RGBA image, viewed pointwise. -/
abbrev ImageRGBA := Pix → RGBA

/-! ## Mask codec (`app/utils/image_utils.py`, and the encoding step of
`SAMModel.predict_masks`) -/

/-- Encoding step of `SAMModel.predict_masks` (sam_model.py lines
192–195): `binary_mask = mask.astype(np.uint8) * 255` followed by
`binary_mask.flatten().tolist()` — true becomes 255, false becomes 0,
rows concatenated in row-major order. -/
def encode_mask (m : List (List Bool)) : List Nat :=
  (m.map (fun row => row.map (fun b => if b then 255 else 0))).flatten

/-- Model of `decode_mask` (image_utils.py lines 82–106): reshape the flat list
row-major into `image_height` rows of `image_width` entries, then
threshold with `value > 127` (the code keeps the result as a 0/1 uint8
grid, modelled as `Bool`). The numpy `reshape(image_height, image_width)`
is expressed by repeatedly splitting off `image_width` entries. -/
def decode_mask (mask_data : List Nat) (image_width image_height : Nat) :
    List (List Bool) :=
  match image_height with
  | 0 => []
  | h + 1 =>
      (mask_data.take image_width).map (fun v => decide (v > 127)) ::
        decode_mask (mask_data.drop image_width) image_width h

/-! ## Mask post-processing of `SAMModel.predict_masks`
(sam_model.py lines 179–209) -/

/-- A raw candidate returned by the opaque predictor: a boolean pixel
grid together with its confidence score. -/
structure RawMask where
  grid : List (List Bool)
  score : ℚ

/-- Column indices of the true entries of one mask row, ascending
(one row's contribution to `np.where`). -/
def rowTrue (row : List Bool) : List Nat :=
  row.enum.filterMap (fun p => if p.2 then some p.1 else none)

/-- All true pixels of a grid as `(y, x)` pairs in row-major scan order:
exactly the pairs `zip(*np.where(mask))` of sam_model.py line 183. -/
def truePixels (g : List (List Bool)) : List (Nat × Nat) :=
  (g.enum.map (fun r => (rowTrue r.2).map (fun x => (r.1, x)))).flatten

/-- One entry of the `mask_data` list built by `SAMModel.predict_masks`
(sam_model.py lines 197–203). -/
structure MaskEntry where
  id : Nat
  score : ℚ
  bbox : List Nat
  mask_data : List Nat
  area : Nat
deriving DecidableEq

/-- The bounding box `[x_min, y_min, width, height]` computed by
sam_model.py lines 185–187 from the true-pixel coordinate lists
(`np.min`/`np.max` over nonempty index arrays; the `getD 0` default is
never used on the nonempty lists this is applied to). -/
def bbox_of (tp : List (Nat × Nat)) : List Nat :=
  let xs := tp.map Prod.snd
  let ys := tp.map Prod.fst
  [xs.min?.getD 0, ys.min?.getD 0,
    xs.max?.getD 0 - xs.min?.getD 0, ys.max?.getD 0 - ys.min?.getD 0]

/-- The `for i, (mask, score) in enumerate(zip(masks, scores))` loop of
sam_model.py lines 181–203, carrying the running index `i`: a candidate
whose `np.where` index arrays are empty is skipped; otherwise an entry
with `id = i` (the pre-filter enumerate index), the bounding box, the
encoded pixels and the true-pixel count (`area = int(np.sum(mask))`)
is appended. -/
def processMasksAux : Nat → List RawMask → List MaskEntry
  | _, [] => []
  | i, r :: rest =>
      let ys := (truePixels r.grid).map Prod.fst
      let xs := (truePixels r.grid).map Prod.snd
      if 0 < ys.length ∧ 0 < xs.length then
        { id := i, score := r.score, bbox := bbox_of (truePixels r.grid),
          mask_data := encode_mask r.grid,
          area := (truePixels r.grid).length } :: processMasksAux (i + 1) rest
      else
        processMasksAux (i + 1) rest

/-- The full mask list built by `SAMModel.predict_masks` from the raw
predictor output (the loop starts with `i = 0`). -/
def processMasks (raw : List RawMask) : List MaskEntry :=
  processMasksAux 0 raw

/-- The dictionary returned by `SAMModel.predict_masks` (sam_model.py
lines 205–209); `image_width`/`image_height` come from
`predictor.original_size`. -/
structure SegmentationResult where
  masks : List MaskEntry
  image_width : Nat
  image_height : Nat
deriving DecidableEq

/-- Result of `SAMModel.predict_masks` for a given predictor state
(original size `w × h`) and raw predictor output. -/
def predict_masks_result (w h : Nat) (raw : List RawMask) : SegmentationResult :=
  { masks := processMasks raw, image_width := w, image_height := h }

/-! ## Prompt dispatch of `SAMModel.predict_masks`
(sam_model.py lines 148–177) -/

/-- The predictor invocation chosen by the `if/elif` chain of
`SAMModel.predict_masks`. -/
inductive PredictorCall where
  | predictAuto (points : Option (List (List Int))) (labels : Option (List Int))
      (box : Option (List Int))
  | predictPoint (points : List (List Int)) (labels : List Int)
  | predictBox (box : List Int)
deriving DecidableEq

/-- Outcome of the dispatch: either the predictor is invoked with the
chosen arguments, or the final `else` raises
`ValueError("Invalid mode ... or missing required prompts")` before any
predictor call. -/
inductive DispatchOutcome where
  | run (c : PredictorCall)
  | invalidModeError
deriving DecidableEq

/-- The `if/elif/else` chain of sam_model.py lines 152–177:
`mode == "auto"` forwards whatever prompts were supplied;
`mode == "point"` only requires `points is not None` and
`point_labels is not None` (emptiness and equal length are not checked);
`mode == "box"` only requires `box is not None` (supplied points are
ignored); everything else raises before the predictor runs. -/
def predict_masks_dispatch (points : Option (List (List Int)))
    (point_labels : Option (List Int)) (box : Option (List Int))
    (mode : String) : DispatchOutcome :=
  if mode = "auto" then
    .run (.predictAuto points point_labels box)
  else if mode = "point" ∧ points.isSome ∧ point_labels.isSome then
    .run (.predictPoint (points.getD []) (point_labels.getD []))
  else if mode = "box" ∧ box.isSome then
    .run (.predictBox (box.getD []))
  else
    .invalidModeError

/-! ## Compositor (`create_transparent_image_with_masks`,
image_utils.py lines 40–80) -/

/-- Compositor `create_transparent_image_with_masks`: start from an all-zero RGBA
image (`np.zeros`); for each mask overwrite, at the pixels where the
mask is true, the three color channels with the source image's channels
and the alpha channel with 255, keeping the accumulated values
elsewhere (the three per-channel `np.where` calls and the alpha
`np.where` share the same mask condition, so one pointwise update per
mask is the faithful combination). -/
def create_transparent_image_with_masks (image : ImageFun)
    (masks : List (Pix → Bool)) : ImageRGBA :=
  masks.foldl
    (fun acc mask => fun p => if mask p then (image p, 255) else acc p)
    (fun _ => ((0, 0, 0), 0))

/-- View of a decoded boolean grid as a pointwise mask: entry at column
`x` of row `y`, false outside the grid. -/
def gridFun (g : List (List Bool)) : Pix → Bool :=
  fun p => (g.getD p.2 []).getD p.1 false

/-! ## Resize geometry and ranking of `app/main.py` -/

/-- The resize block shared by `segment_image` (main.py lines 190–206)
and `segment_with_points` (main.py lines 324–349): if either dimension
exceeds `max_dimension`, the longer axis is set to `max_dimension` and
the other axis to `int(shorter * (max_dimension / longer))` — Python
`int()` truncates, i.e. floors the nonnegative ratio, modelled by
natural division of the exact product (the code computes this in
floating point; the model is the exact value the code approximates).
Also returns the two per-axis ratios `new/original` used by
`segment_with_points` to adjust point coordinates; when no resize
happens the image is used unchanged, i.e. both ratios are 1. -/
def fit_to_bound (original_width original_height max_dimension : Nat) :
    Nat × Nat × ℚ × ℚ :=
  if original_width > max_dimension ∨ original_height > max_dimension then
    if original_width > original_height then
      let nw := max_dimension
      let nh := original_height * max_dimension / original_width
      (nw, nh, (nw : ℚ) / (original_width : ℚ), (nh : ℚ) / (original_height : ℚ))
    else
      let nh := max_dimension
      let nw := original_width * max_dimension / original_height
      (nw, nh, (nw : ℚ) / (original_width : ℚ), (nh : ℚ) / (original_height : ℚ))
  else
    (original_width, original_height, 1, 1)

/-- One entry of the `mask_results` list of main.py lines 244–256 /
400–412: `{"id": i, "mask": <base64 PNG>, "score": float(score)}`. The
base64 payload is opaque PNG bytes and irrelevant to ordering; the model
keeps the two fields the ranking claim is about. -/
structure MainMask where
  id : Nat
  score : ℚ
deriving DecidableEq

/-- The `for i, (mask, score) in enumerate(zip(masks, scores))` loop of
main.py lines 245–256: one entry per raw mask, `id` equal to the
enumerate index. -/
def build_mask_results (scores : List ℚ) : List MainMask :=
  scores.enum.map (fun p => { id := p.1, score := p.2 })

/-- Ranking step `mask_results.sort(key=lambda x: x["score"], reverse=True)`
(main.py line 259 / 415): CPython's sort is stable and `reverse=True`
orders by descending key while keeping tied elements in their original
order; this is modelled by the stable insertion sort with `a` placed
before `b` exactly when `b.score ≤ a.score`, which produces the same
list as any stable descending sort. -/
def sort_by_score_desc (l : List MainMask) : List MainMask :=
  l.insertionSort (fun a b => b.score ≤ a.score)

/-! ## Session store and routes (`app/routers/segmentation.py`) -/

/-- One entry of the module-level `IMAGE_STORE` dict (segmentation.py
lines 45–49): the saved file path, the most recent segmentation result
(`None` until the first successful call) and the segmented flag. -/
structure StoredSession where
  file_path : String
  masks : Option SegmentationResult
  segmented : Bool
deriving DecidableEq

/-- The `IMAGE_STORE` mapping, keyed by image id. -/
abbrev ImageStore := List (String × StoredSession)

/-- Dictionary lookup `IMAGE_STORE[image_id]` (keys are unique). -/
def storeLookup (store : ImageStore) (image_id : String) :
    Option StoredSession :=
  (store.find? (fun p => p.1 == image_id)).map Prod.snd

/-- Dictionary update `IMAGE_STORE[image_id] = sess` for an existing
key. -/
def storeUpdate (store : ImageStore) (image_id : String)
    (sess : StoredSession) : ImageStore :=
  store.map (fun p => if p.1 == image_id then (p.1, sess) else p)

/-- The error responses the two modelled routes can raise
(`HTTPException`s of segmentation.py, plus the `ValueError` bubbled up
from `SAMModel.predict_masks` and opaque predictor failures). -/
inductive ApiError where
  | notFound
  | readFailed
  | notSegmented
  | noMatchingMasks
  | invalidPrompt
  | predictFailed
deriving DecidableEq

/-- Route `segment_image` (segmentation.py lines 62–118). `read_image` models
`cv2.imread` (None on failure); `predictor` models the opaque SAM
predictor invoked by `SAMModel.predict_masks` once the dispatch chose a
call; `w`/`h` model `predictor.original_size`. Returns the response
together with the store after the call: the store is only written
(lines 109–110: masks overwritten, segmented set true) after every
fallible step succeeded. -/
def segment_image_route (read_image : String → Option ImageFun)
    (predictor : PredictorCall → Except Unit (List RawMask)) (w h : Nat)
    (store : ImageStore) (image_id : String)
    (points : Option (List (List Int))) (point_labels : Option (List Int))
    (box : Option (List Int)) (mode : String) :
    Except ApiError SegmentationResult × ImageStore :=
  match storeLookup store image_id with
  | none => (.error .notFound, store)
  | some sess =>
      match read_image sess.file_path with
      | none => (.error .readFailed, store)
      | some _image =>
          match predict_masks_dispatch points point_labels box mode with
          | .invalidModeError => (.error .invalidPrompt, store)
          | .run c =>
              match predictor c with
              | .error _ => (.error .predictFailed, store)
              | .ok raw =>
                  let result := predict_masks_result w h raw
                  (.ok result,
                    storeUpdate store image_id
                      { sess with masks := some result, segmented := true })

/-- Route `export_image` (segmentation.py lines 120–191): look the session up
(404 if absent); reject with 400 if `not segmented or not masks`
(lines 141–142); read the original image (500 on failure); reject with
400 if none of the requested ids occurs among the stored mask ids
(lines 158–161); otherwise, for each requested id in order, append the
first stored mask with that id if any (lines 164–171 — absent ids
contribute nothing), decode it, and composite the selection over the
original image. -/
def selected_masks_of (result : SegmentationResult) (mask_ids : List Nat) :
    List (Pix → Bool) :=
  mask_ids.filterMap (fun mid =>
    (result.masks.find? (fun md => md.id == mid)).map (fun md =>
      gridFun (decode_mask md.mask_data result.image_width
        result.image_height)))

/-- Route `export_image` (segmentation.py lines 120–191), continued: the
selection loop factored out above, the rest here. -/
def export_image_route (read_image : String → Option ImageFun)
    (store : ImageStore) (image_id : String) (mask_ids : List Nat) :
    Except ApiError ImageRGBA :=
  match storeLookup store image_id with
  | none => .error .notFound
  | some sess =>
      match sess.segmented, sess.masks with
      | true, some result =>
          match read_image sess.file_path with
          | none => .error .readFailed
          | some image =>
              let valid_mask_ids := result.masks.map (fun md => md.id)
              if mask_ids.any (fun mid => valid_mask_ids.contains mid) then
                .ok (create_transparent_image_with_masks image
                  (selected_masks_of result mask_ids))
              else
                .error .noMatchingMasks
      | _, _ => .error .notSegmented

/-! ## Codec lemmas and C2 -/

/-- Encoding one row and thresholding recovers the row. -/
theorem decode_row_encode_row (row : List Bool) :
    (row.map (fun b => if b then 255 else 0)).map
        (fun v => decide (v > 127)) = row := by
  induction row with
  | nil => rfl
  | cons b rest ih => cases b <;> simp_all

/-- Shared round-trip lemma for the codec: decoding an encoded
well-shaped grid (every row of length `w`) at height `m.length`
recovers the grid. -/
theorem decode_encode_aux (m : List (List Bool)) (w : Nat)
    (hw : ∀ row ∈ m, row.length = w) :
    decode_mask (encode_mask m) w m.length = m := by
  induction m with
  | nil => rfl
  | cons row rest ih =>
      have hrow : row.length = w := hw row (List.mem_cons_self _ _)
      have hrest : ∀ r ∈ rest, r.length = w := by
        intro r hr; exact hw r (List.mem_cons_of_mem _ hr)
      have hlen : (row.map (fun b => if b then 255 else 0)).length = w := by
        simpa using hrow
      show decode_mask
          ((row.map fun b => if b then 255 else 0) ++ encode_mask rest)
          w (rest.length + 1) = row :: rest
      rw [decode_mask]
      congr 1
      · rw [List.take_append_of_le_length (le_of_eq hlen.symm),
          List.take_of_length_le (le_of_eq hlen)]
        exact decode_row_encode_row row
      · rw [List.drop_append_of_le_length (le_of_eq hlen.symm),
          List.drop_of_length_le (le_of_eq hlen)]
        simpa using ih hrest

/-- C2: for every boolean mask grid `m` of width `w` and height `h`,
decoding the encoded flat sequence (true → 255, false → 0, row-major)
with the threshold rule `value > 127 → true` yields `m` again:
`decode (encode m) w h = m`. -/
theorem c2_decode_encode_roundtrip (m : List (List Bool)) (w h : Nat)
    (hh : m.length = h) (hw : ∀ row ∈ m, row.length = w) :
    decode_mask (encode_mask m) w h = m := by
  subst hh
  exact decode_encode_aux m w hw

/-- Witness for C2 at the concrete 2×2 grid
`[[true, false], [false, true]]`. -/
theorem c2_decode_encode_roundtrip_witness :
    ([[true, false], [false, true]] : List (List Bool)).length = 2 ∧
      (∀ row ∈ ([[true, false], [false, true]] : List (List Bool)),
        row.length = 2) ∧
      decode_mask (encode_mask [[true, false], [false, true]]) 2 2 =
        [[true, false], [false, true]] :=
  ⟨rfl, by decide,
    c2_decode_encode_roundtrip [[true, false], [false, true]] 2 2 rfl
      (by decide)⟩

/-! ## Compositor lemmas and C5 -/

/-- Pointwise characterization of the compositing fold, for an arbitrary
accumulated image. -/
theorem composite_foldl_apply (image : ImageFun) (masks : List (Pix → Bool))
    (acc : ImageRGBA) (p : Pix) :
    (masks.foldl
        (fun acc mask => fun p => if mask p then (image p, 255) else acc p)
        acc) p =
      if masks.any (fun m => m p) then (image p, 255) else acc p := by
  induction masks generalizing acc with
  | nil => simp
  | cons m rest ih =>
      rw [List.foldl_cons, ih, List.any_cons]
      by_cases hm : m p <;> by_cases hr : rest.any (fun mk => mk p) <;>
        simp [hm, hr]

/-- Pointwise characterization of
`create_transparent_image_with_masks`: union of the masks, source color
and alpha 255 where covered, transparent black elsewhere. -/
theorem composite_apply (image : ImageFun) (masks : List (Pix → Bool))
    (p : Pix) :
    create_transparent_image_with_masks image masks p =
      if masks.any (fun m => m p) then (image p, 255) else ((0, 0, 0), 0) :=
  composite_foldl_apply image masks _ p

/-- C5: at each pixel covered by at least one mask the composited output
carries the source image's color with alpha 255, at each pixel covered
by no mask it is transparent black `((0,0,0), 0)`; and compositing is a
pure union — a duplicated mask changes nothing, so a pixel covered
twice is identical to one covered once. -/
theorem c5_composite_union (image : ImageFun) (masks : List (Pix → Bool))
    (m : Pix → Bool) (p : Pix) :
    (create_transparent_image_with_masks image masks p =
        if masks.any (fun mk => mk p) then (image p, 255)
        else ((0, 0, 0), 0)) ∧
      create_transparent_image_with_masks image (m :: m :: masks) =
        create_transparent_image_with_masks image (m :: masks) := by
  refine ⟨composite_apply image masks p, funext fun q => ?_⟩
  rw [composite_apply, composite_apply]
  by_cases hm : m q <;> simp [hm]

/-! ## Post-processing lemmas, C1 and C7 -/

/-- Every entry produced by the predict_masks loop comes from a raw
candidate with at least one true pixel, and its fields are computed
from that candidate's grid. -/
theorem mem_processMasksAux {i : Nat} {raw : List RawMask} {e : MaskEntry}
    (he : e ∈ processMasksAux i raw) :
    ∃ r ∈ raw, 0 < (truePixels r.grid).length ∧ e.score = r.score ∧
      e.bbox = bbox_of (truePixels r.grid) ∧
      e.mask_data = encode_mask r.grid ∧
      e.area = (truePixels r.grid).length := by
  induction raw generalizing i with
  | nil => simp [processMasksAux] at he
  | cons r rest ih =>
      rw [processMasksAux] at he
      by_cases h : 0 < (truePixels r.grid).length
      · simp only [List.length_map, h, and_self, if_true] at he
        rcases List.mem_cons.mp he with rfl | hmem
        · exact ⟨r, List.mem_cons_self _ _, h, rfl, rfl, rfl, rfl⟩
        · obtain ⟨r1, hr1, hrest⟩ := ih hmem
          exact ⟨r1, List.mem_cons_of_mem _ hr1, hrest⟩
      · simp only [List.length_map, h, and_self, if_false] at he
        obtain ⟨r1, hr1, hrest⟩ := ih he
        exact ⟨r1, List.mem_cons_of_mem _ hr1, hrest⟩

/-- C7: every candidate emitted by `SAMModel.predict_masks` on
well-shaped raw masks has positive area, and its `area` and `bbox`
fields agree with the pixel grid its `mask_data` field decodes to —
empty candidates never appear. -/
theorem c7_emitted_candidates (w h : Nat) (raw : List RawMask)
    (hshape : ∀ r ∈ raw, r.grid.length = h ∧ ∀ row ∈ r.grid, row.length = w)
    (e : MaskEntry) (he : e ∈ (predict_masks_result w h raw).masks) :
    0 < e.area ∧
      e.area = (truePixels (decode_mask e.mask_data w h)).length ∧
      e.bbox = bbox_of (truePixels (decode_mask e.mask_data w h)) := by
  obtain ⟨r, hr, hpos, _hscore, hbbox, hmask, harea⟩ :=
    mem_processMasksAux he
  have hdec : decode_mask e.mask_data w h = r.grid := by
    rw [hmask, ← (hshape r hr).1]
    exact decode_encode_aux r.grid w (hshape r hr).2
  rw [hdec, harea, hbbox]
  exact ⟨hpos, rfl, rfl⟩

/-- Witness for C7: one raw 1×1 candidate with a single true pixel. -/
theorem c7_emitted_candidates_witness :
    (∀ r ∈ ([⟨[[true]], 1⟩] : List RawMask),
        r.grid.length = 1 ∧ ∀ row ∈ r.grid, row.length = 1) ∧
      (⟨0, 1, [0, 0, 0, 0], [255], 1⟩ : MaskEntry) ∈
        (predict_masks_result 1 1 [⟨[[true]], 1⟩]).masks ∧
      0 < (⟨0, 1, [0, 0, 0, 0], [255], 1⟩ : MaskEntry).area :=
  ⟨by decide, by decide,
    (c7_emitted_candidates 1 1 [⟨[[true]], 1⟩] (by decide) _ (by decide)).1⟩

/-- The ids produced by the loop starting at index `i` are the
`enumFrom i` indices of the candidates with at least one true pixel. -/
theorem processMasksAux_map_id (raw : List RawMask) :
    ∀ i : Nat, (processMasksAux i raw).map MaskEntry.id =
      ((raw.enumFrom i).filter
        (fun p => decide (0 < (truePixels p.2.grid).length))).map Prod.fst := by
  induction raw with
  | nil => intro i; rfl
  | cons r rest ih =>
      intro i
      rw [processMasksAux, List.enumFrom]
      by_cases h : 0 < (truePixels r.grid).length
      · simp only [List.length_map, h, and_self, if_true, List.map_cons,
          List.filter_cons, decide_True]
        rw [ih]
      · simp only [List.length_map, h, and_self, if_false,
          List.filter_cons, decide_False, Bool.false_eq_true, if_false]
        rw [ih]

/-- The scores produced by the loop are the raw scores of the
candidates with at least one true pixel, in predictor order. -/
theorem processMasksAux_map_score (raw : List RawMask) :
    ∀ i : Nat, (processMasksAux i raw).map MaskEntry.score =
      (raw.filter
        (fun r => decide (0 < (truePixels r.grid).length))).map RawMask.score := by
  induction raw with
  | nil => intro i; rfl
  | cons r rest ih =>
      intro i
      rw [processMasksAux]
      by_cases h : 0 < (truePixels r.grid).length
      · simp only [List.length_map, h, and_self, if_true, List.map_cons,
          List.filter_cons, decide_True]
        rw [ih]
      · simp only [List.length_map, h, and_self, if_false,
          List.filter_cons, decide_False, Bool.false_eq_true, if_false]
        rw [ih]

/-- C1 (amended): `SAMModel.predict_masks` neither sorts nor reassigns
ids — its mask ids are the pre-filter 0-based predictor indices of the
nonempty candidates (dropped empty masks leave gaps) and the scores
stay in predictor order; `segment_image` in `app/main.py` does sort its
results by score descending (a stable sort, keeping the pre-sort
entries as a permutation), but its ids are the pre-sort enumerate
indices, not the post-sort positions. -/
theorem c1_ranking (raw : List RawMask) (scores : List ℚ) :
    ((processMasks raw).map MaskEntry.id =
        ((raw.enum.filter
          (fun p => decide (0 < (truePixels p.2.grid).length))).map
            Prod.fst)) ∧
      ((processMasks raw).map MaskEntry.score =
        (raw.filter
          (fun r => decide (0 < (truePixels r.grid).length))).map
            RawMask.score) ∧
      ((build_mask_results scores).map MainMask.id =
        List.range scores.length) ∧
      (sort_by_score_desc (build_mask_results scores)).Perm
        (build_mask_results scores) ∧
      List.Sorted (fun a b => b.score ≤ a.score)
        (sort_by_score_desc (build_mask_results scores)) := by
  refine ⟨processMasksAux_map_id raw 0, processMasksAux_map_score raw 0,
    ?_, List.perm_insertionSort _ _, ?_⟩
  · rw [build_mask_results, List.map_map]
    have : (MainMask.id ∘ fun p : Nat × ℚ => MainMask.mk p.1 p.2) =
        Prod.fst := rfl
    rw [this, List.enum_map_fst]
  · haveI : IsTotal MainMask (fun a b => b.score ≤ a.score) :=
      ⟨fun a b => le_total b.score a.score⟩
    haveI : IsTrans MainMask (fun a b => b.score ≤ a.score) :=
      ⟨fun _ _ _ h1 h2 => le_trans h2 h1⟩
    exact List.sorted_insertionSort _ _

/-- Counterexample to C1 as stated: for the raw predictor output
`[empty mask, nonempty mask]`, `SAMModel.predict_masks` emits the single
nonempty candidate with id 1 (its pre-filter predictor index), not with
id 0 (its post-filter position), so the ids are not the post-sort,
post-filter 0-based positions. -/
theorem c1_ranking_counterexample :
    (processMasks [⟨[[false]], 1⟩, ⟨[[true]], 1⟩]).map MaskEntry.id ≠
      List.range (processMasks [⟨[[false]], 1⟩, ⟨[[true]], 1⟩]).length := by
  decide

/-! ## Dispatch theorems: C4 and C8 -/

/-- C4 (amended): `SAMModel.predict_masks` raises before invoking the
predictor exactly when no branch of its `if/elif` chain matches: the
mode is none of "auto"/"point"/"box", or mode "point" lacks a points or
labels argument (`None`), or mode "box" lacks a box. In particular
mode "auto" forwards any supplied prompts, mode "point" accepts an
empty point list and never checks label-list length, and mode "box"
silently ignores supplied points. -/
theorem c4_invalid_combinations (points : Option (List (List Int)))
    (labels : Option (List Int)) (box : Option (List Int)) (mode : String) :
    predict_masks_dispatch points labels box mode =
        DispatchOutcome.invalidModeError ↔
      ¬(mode = "auto" ∨ (mode = "point" ∧ points.isSome ∧ labels.isSome) ∨
        (mode = "box" ∧ box.isSome)) := by
  rw [predict_masks_dispatch]
  split_ifs with h1 h2 h3 <;> simp_all

/-- Counterexample to C4 as stated: an empty point list with mode
"point" is one of the combinations the claim says must signal an error
before the predictor is invoked, yet the code's branch guard only
checks `is not None`, so the dispatch invokes the predictor. -/
theorem c4_invalid_combinations_counterexample :
    predict_masks_dispatch (some []) (some []) none "point" ≠
      DispatchOutcome.invalidModeError := by
  decide

/-- C8 (amended): no bounds check exists — the dispatch of
`SAMModel.predict_masks` never inspects the bound image's extent, and
for every point or box prompt, whatever its coordinates, the matching
branch invokes the predictor with those exact coordinates; no
`PromptOutOfBounds` refusal is ever signalled. -/
theorem c8_no_bounds_check (points : List (List Int)) (labels : List Int)
    (box : List Int) :
    predict_masks_dispatch (some points) (some labels) none "point" =
        DispatchOutcome.run (.predictPoint points labels) ∧
      predict_masks_dispatch none none (some box) "box" =
        DispatchOutcome.run (.predictBox box) :=
  ⟨rfl, rfl⟩

/-- Counterexample to C8 as stated: a point far outside any plausible
image extent is not refused — the predictor is invoked with it
unchanged (the dispatch does not even receive the image's extent). -/
theorem c8_no_bounds_check_counterexample :
    predict_masks_dispatch (some [[1000000, 1000000]]) (some [1]) none
        "point" =
      DispatchOutcome.run (.predictPoint [[1000000, 1000000]] [1]) := by
  rfl

/-! ## Geometry theorems: C3 -/

/-- C3 (amended): for `W` strictly larger than both `max_dimension` and
`H`, the resize yields new width exactly `max_dimension` and new height
`⌊H * max_dimension / W⌋` — Python's `int()` truncates, it does not
round to the nearest integer; for `W ≤ max_dimension` and
`H ≤ max_dimension` the image is left unchanged and both ratios are
1. -/
theorem c3_fit_to_bound (W H maxd : Nat) :
    (maxd < W → H < W →
      (fit_to_bound W H maxd).1 = maxd ∧
        (fit_to_bound W H maxd).2.1 = H * maxd / W) ∧
      (W ≤ maxd → H ≤ maxd → fit_to_bound W H maxd = (W, H, 1, 1)) := by
  constructor
  · intro h1 h2
    rw [fit_to_bound, if_pos (Or.inl h1), if_pos h2]
    exact ⟨rfl, rfl⟩
  · intro h1 h2
    rw [fit_to_bound, if_neg]
    rw [not_or, not_lt, not_lt]
    exact ⟨h1, h2⟩

/-- Witness for C3 (amended) at a resized and an unresized input. -/
theorem c3_fit_to_bound_witness :
    (1024 < 2048 ∧ 1535 < 2048 ∧
        (fit_to_bound 2048 1535 1024).1 = 1024 ∧
        (fit_to_bound 2048 1535 1024).2.1 = 1535 * 1024 / 2048) ∧
      (100 ≤ 1024 ∧ 50 ≤ 1024 ∧ fit_to_bound 100 50 1024 = (100, 50, 1, 1)) :=
  ⟨⟨by decide, by decide,
      (c3_fit_to_bound 2048 1535 1024).1 (by decide) (by decide)⟩,
    ⟨by decide, by decide,
      (c3_fit_to_bound 100 50 1024).2 (by decide) (by decide)⟩⟩

/-- Counterexample to C3 as stated: at original size 2048×1535 with
`max_dimension = 1024` the code computes height `int(1535 * 0.5) = 767`
(truncation, and the float products involved are exact here), while
round-to-nearest of `1535 × 1024 / 2048 = 767.5` is 768. -/
theorem c3_fit_to_bound_counterexample :
    ((fit_to_bound 2048 1535 1024).2.1 : ℤ) ≠
      round ((1535 : ℚ) * 1024 / 2048) := by
  have h1 : (fit_to_bound 2048 1535 1024).2.1 = 767 := by decide
  have h2 : round ((1535 : ℚ) * 1024 / 2048) = 768 := by
    norm_num [round_eq]
  rw [h1, h2]
  decide

/-! ## Session/route theorems: C6 and C9 -/

/-- C6: an export request on a session whose segmented flag is false is
rejected with the "Image has not been segmented yet" error, whatever
the requested ids — it never returns an image. -/
theorem c6_export_unsegmented (read_image : String → Option ImageFun)
    (store : ImageStore) (image_id : String) (mask_ids : List Nat)
    (sess : StoredSession)
    (h1 : storeLookup store image_id = some sess)
    (h2 : sess.segmented = false) :
    export_image_route read_image store image_id mask_ids =
      .error .notSegmented := by
  cases hm : sess.masks <;> simp [export_image_route, h1, h2, hm]

/-- Witness for C6 at a one-session store with `segmented = false`. -/
theorem c6_export_unsegmented_witness :
    storeLookup [("img", ⟨"p", none, false⟩)] "img" =
        some ⟨"p", none, false⟩ ∧
      (⟨"p", none, false⟩ : StoredSession).segmented = false ∧
      export_image_route (fun _ => none) [("img", ⟨"p", none, false⟩)]
          "img" [0] = .error .notSegmented :=
  ⟨rfl, rfl, c6_export_unsegmented _ _ _ _ _ rfl rfl⟩

/-- C9: whenever the segmentation route answers with an error (unknown
session, unreadable image, invalid prompt combination, or a predictor
failure), the store is returned unchanged: the session's masks and
segmented flag keep their prior values, since the store is only written
after a successful prediction. -/
theorem c9_failed_segment_keeps_store (read_image : String → Option ImageFun)
    (predictor : PredictorCall → Except Unit (List RawMask)) (w h : Nat)
    (store : ImageStore) (image_id : String)
    (points : Option (List (List Int))) (point_labels : Option (List Int))
    (box : Option (List Int)) (mode : String) (e : ApiError)
    (herr : (segment_image_route read_image predictor w h store image_id
        points point_labels box mode).1 = .error e) :
    (segment_image_route read_image predictor w h store image_id points
        point_labels box mode).2 = store := by
  cases hl : storeLookup store image_id with
  | none => simp [segment_image_route, hl]
  | some sess =>
      cases hr : read_image sess.file_path with
      | none => simp [segment_image_route, hl, hr]
      | some img =>
          cases hd : predict_masks_dispatch points point_labels box mode with
          | invalidModeError => simp [segment_image_route, hl, hr, hd]
          | run c =>
              cases hp : predictor c with
              | error u => simp [segment_image_route, hl, hr, hd, hp]
              | ok raw =>
                  simp [segment_image_route, hl, hr, hd, hp] at herr

/-- Witness for C9: a predictor failure on an existing session leaves
the one-session store untouched. -/
theorem c9_failed_segment_keeps_store_witness :
    (segment_image_route (fun _ => some (fun _ => (0, 0, 0)))
          (fun _ => .error ()) 3 3 [("img", ⟨"p", none, false⟩)] "img"
          none none none "auto").1 = .error .predictFailed ∧
      (segment_image_route (fun _ => some (fun _ => (0, 0, 0)))
          (fun _ => .error ()) 3 3 [("img", ⟨"p", none, false⟩)] "img"
          none none none "auto").2 = [("img", ⟨"p", none, false⟩)] :=
  ⟨rfl, c9_failed_segment_keeps_store _ _ _ _ _ _ _ _ _ _ _ rfl⟩

/-! ## Export theorems: C10 -/

/-- Success form of the export route: with an existing, segmented
session, a readable image and at least one valid requested id, the
route composites the selected masks over the image. -/
theorem export_route_ok (read_image : String → Option ImageFun)
    (store : ImageStore) (image_id : String) (mask_ids : List Nat)
    (sess : StoredSession) (result : SegmentationResult) (image : ImageFun)
    (h1 : storeLookup store image_id = some sess)
    (h2 : sess.segmented = true)
    (h3 : sess.masks = some result)
    (h4 : read_image sess.file_path = some image)
    (h5 : mask_ids.any
      (fun mid => (result.masks.map (fun md => md.id)).contains mid) = true) :
    export_image_route read_image store image_id mask_ids =
      .ok (create_transparent_image_with_masks image
        (selected_masks_of result mask_ids)) := by
  obtain ⟨x, hx, hvx⟩ := List.any_eq_true.mp h5
  simp [export_image_route, h1, h2, h3, h4, h5]
  exact ⟨x, hx, by simpa using hvx⟩

/-- Filtering a list before `filterMap` is invisible when the function
returns `none` on every filtered-out element. -/
theorem filterMap_filter_of_none {β : Type} (f : Nat → Option β)
    (p : Nat → Bool) (hf : ∀ x, p x = false → f x = none) (l : List Nat) :
    (l.filter p).filterMap f = l.filterMap f := by
  induction l with
  | nil => rfl
  | cons a l ih =>
      cases hp : p a
      · simp [List.filter_cons, hp, List.filterMap_cons, hf a hp, ih]
      · simp [List.filter_cons, hp, List.filterMap_cons, ih]

/-- Requested ids with no matching stored mask contribute nothing to
the selection: filtering them away leaves the selection unchanged. -/
theorem selected_masks_filter (result : SegmentationResult)
    (mask_ids : List Nat) :
    selected_masks_of result
        (mask_ids.filter
          (fun mid => (result.masks.map (fun md => md.id)).contains mid)) =
      selected_masks_of result mask_ids := by
  apply filterMap_filter_of_none
  intro x hx
  have hnm : x ∉ result.masks.map (fun md => md.id) := by
    simpa using hx
  have : result.masks.find? (fun md => md.id == x) = none := by
    apply List.find?_eq_none.mpr
    intro md hmd hbeq
    exact hnm (List.mem_map.mpr ⟨md, hmd, by simpa using hbeq⟩)
  simp [this]

/-- Appending a mask already selected does not change the composited
output (union idempotence). -/
theorem composite_append_mem (image : ImageFun) (s : List (Pix → Bool))
    (m : Pix → Bool) (hm : m ∈ s) :
    create_transparent_image_with_masks image (s ++ [m]) =
      create_transparent_image_with_masks image s := by
  funext p
  rw [composite_apply, composite_apply, List.any_append]
  cases ha : s.any (fun mk => mk p)
  · have hmp : ¬(m p = true) := fun hmt =>
      (Bool.not_eq_true _).mpr ha (List.any_eq_true.mpr ⟨m, hm, hmt⟩)
    simp [Bool.not_eq_true] at hmp
    simp [hmp]
  · simp

/-- C10: on a segmented session with a readable image, an export
request containing at least one stored id succeeds; requested ids with
no stored mask are silently skipped (removing them changes nothing);
and repeating a valid requested id appends its mask once more to the
selection without changing the composited output. -/
theorem c10_export_mixed_ids (read_image : String → Option ImageFun)
    (store : ImageStore) (image_id : String) (mask_ids : List Nat) (d : Nat)
    (sess : StoredSession) (result : SegmentationResult) (image : ImageFun)
    (h1 : storeLookup store image_id = some sess)
    (h2 : sess.segmented = true)
    (h3 : sess.masks = some result)
    (h4 : read_image sess.file_path = some image)
    (h5 : mask_ids.any
      (fun mid => (result.masks.map (fun md => md.id)).contains mid) = true)
    (h6 : d ∈ mask_ids)
    (h7 : (result.masks.map (fun md => md.id)).contains d = true) :
    (∃ out, export_image_route read_image store image_id mask_ids =
        .ok out) ∧
      export_image_route read_image store image_id
          (mask_ids.filter
            (fun mid => (result.masks.map (fun md => md.id)).contains mid)) =
        export_image_route read_image store image_id mask_ids ∧
      export_image_route read_image store image_id (mask_ids ++ [d]) =
        export_image_route read_image store image_id mask_ids := by
  have hok := export_route_ok read_image store image_id mask_ids sess result
    image h1 h2 h3 h4 h5
  refine ⟨⟨_, hok⟩, ?_, ?_⟩
  · have h5f : (mask_ids.filter
        (fun mid =>
          (result.masks.map (fun md => md.id)).contains mid)).any
        (fun mid => (result.masks.map (fun md => md.id)).contains mid) =
          true := by
      obtain ⟨x, hx, hvx⟩ := List.any_eq_true.mp h5
      exact List.any_eq_true.mpr ⟨x, List.mem_filter.mpr ⟨hx, hvx⟩, hvx⟩
    rw [export_route_ok read_image store image_id _ sess result image h1 h2
      h3 h4 h5f, hok, selected_masks_filter]
  · have h5d : (mask_ids ++ [d]).any
        (fun mid => (result.masks.map (fun md => md.id)).contains mid) =
          true := by
      rw [List.any_append, h5, Bool.true_or]
    rw [export_route_ok read_image store image_id _ sess result image h1 h2
      h3 h4 h5d, hok]
    have hdm : d ∈ result.masks.map (fun md => md.id) := by
      simpa using h7
    obtain ⟨md0, hmd0, hid0⟩ := List.mem_map.mp hdm
    have hsome : (result.masks.find? (fun md => md.id == d)).isSome := by
      rw [List.find?_isSome]
      exact ⟨md0, hmd0, by simpa using hid0⟩
    obtain ⟨md, hmd⟩ := Option.isSome_iff_exists.mp hsome
    have happ : selected_masks_of result (mask_ids ++ [d]) =
        selected_masks_of result mask_ids ++
          [gridFun (decode_mask md.mask_data result.image_width
            result.image_height)] := by
      simp [selected_masks_of, List.filterMap_append, hmd]
    have hmem : gridFun (decode_mask md.mask_data result.image_width
        result.image_height) ∈ selected_masks_of result mask_ids := by
      apply List.mem_filterMap.mpr
      exact ⟨d, h6, by simp [hmd]⟩
    rw [happ]
    exact congrArg Except.ok (composite_append_mem image _ _ hmem)

/-- Witness for C10: a one-session store holding one mask with id 0,
requested ids `[0, 5]` (5 does not exist) and duplicate id 0. -/
theorem c10_export_mixed_ids_witness :
    (∃ out, export_image_route (fun _ => some (fun _ => (9, 9, 9)))
        [("img", ⟨"p",
          some ⟨[⟨0, 1, [0, 0, 0, 0], [255], 1⟩], 1, 1⟩, true⟩)]
        "img" [0, 5] = .ok out) ∧
      export_image_route (fun _ => some (fun _ => (9, 9, 9)))
          [("img", ⟨"p",
            some ⟨[⟨0, 1, [0, 0, 0, 0], [255], 1⟩], 1, 1⟩, true⟩)]
          "img" (([0, 5] : List Nat).filter
            (fun mid =>
              ((⟨[⟨0, 1, [0, 0, 0, 0], [255], 1⟩], 1, 1⟩ :
                SegmentationResult).masks.map
                  (fun md => md.id)).contains mid)) =
        export_image_route (fun _ => some (fun _ => (9, 9, 9)))
          [("img", ⟨"p",
            some ⟨[⟨0, 1, [0, 0, 0, 0], [255], 1⟩], 1, 1⟩, true⟩)]
          "img" [0, 5] ∧
      export_image_route (fun _ => some (fun _ => (9, 9, 9)))
          [("img", ⟨"p",
            some ⟨[⟨0, 1, [0, 0, 0, 0], [255], 1⟩], 1, 1⟩, true⟩)]
          "img" ([0, 5] ++ [0]) =
        export_image_route (fun _ => some (fun _ => (9, 9, 9)))
          [("img", ⟨"p",
            some ⟨[⟨0, 1, [0, 0, 0, 0], [255], 1⟩], 1, 1⟩, true⟩)]
          "img" [0, 5] :=
  c10_export_mixed_ids (fun _ => some (fun _ => (9, 9, 9)))
    [("img", ⟨"p", some ⟨[⟨0, 1, [0, 0, 0, 0], [255], 1⟩], 1, 1⟩, true⟩)]
    "img" [0, 5] 0
    ⟨"p", some ⟨[⟨0, 1, [0, 0, 0, 0], [255], 1⟩], 1, 1⟩, true⟩
    ⟨[⟨0, 1, [0, 0, 0, 0], [255], 1⟩], 1, 1⟩ (fun _ => (9, 9, 9))
    rfl rfl rfl rfl (by decide) (by decide) (by decide)

end ImageClipper
